import Mathlib

/-!
Shallow embedding of `cargo-hakari`'s command layer
(`src/tools/cargo-hakari/src/command.rs`).

The command layer orchestrates: path resolution relative to the workspace
root (`cwd_rel_to_workspace_rel`), package selection
(`PackageSelection::to_package_set`), manifest reconciliation
(`write_to_cargo_toml`), and the confirmation/apply state machine
(`apply_on_dialog`).

External collaborators (the `hakari`/`guppy` planner, the TOML
read/write/diff provider, the interactive confirmation dialog, the
lockfile regenerator) are modelled as explicit inputs: their outcomes are
fields of an environment record, and every mutating call the command layer
makes to them is recorded in an output `List Effect`.  Exit codes are the
`Int` carried by `Except.ok`; a Rust `Err` return (general failure,
reported as exit 101 by the binary wrapper) is `Except.error`.
-/

namespace CargoHakari

/-- A UTF-8 filesystem path (Rust `camino::Utf8PathBuf`), modelled as an
absolute-path flag plus the list of normal components produced by Rust's
component iterator (which drops `.` components and keeps `..`). -/
structure Utf8Path where
  absolute : Bool
  components : List String
deriving DecidableEq, Repr

/-- Rust `Path::file_name`: the final component of the path, `none` when the
path is empty / a bare root or terminates in `..`. -/
def Utf8Path.file_name (p : Utf8Path) : Option String :=
  match p.components.getLast? with
  | some c => if c = ".." then none else some c
  | none => none

/-- Rust `PathBuf::push`: pushing an absolute path replaces the base,
otherwise the components are appended. -/
def Utf8Path.push (base p : Utf8Path) : Utf8Path :=
  if p.absolute then p else ⟨base.absolute, base.components ++ p.components⟩

/-- Whether `root` is a component-wise ancestor (or the same path): exactly
the condition under which Rust `Path::strip_prefix` succeeds. -/
def isDescendantOf (p root : Utf8Path) : Bool :=
  p.absolute == root.absolute && root.components.isPrefixOf p.components

/-- Rust `Path::strip_prefix`: the relative remainder of `p` after removing
the leading components of `root`, or `none` when `root` is not a prefix. -/
def stripPrefixRel (p root : Utf8Path) : Option Utf8Path :=
  if isDescendantOf p root then some ⟨false, p.components.drop root.components.length⟩
  else none

/-- Errors the command layer can propagate (a Rust `Err` return, exit 101 in
the binary wrapper).  Constructors follow the distinct `bail!`/`?` sites in
`command.rs`. -/
inductive CmdError
  | invalidPath
  | cwdAccess
  | invalidUtf8Cwd
  | pathOutsideWorkspace
  | unknownPackage (name : String)
  | initFailed
  | configFailed
  | tomlOutFailed
  | readTomlFailed
  | writeFailed
  | lockRegenFailed
  | applyOpFailed
  | dialogIoFailed
deriving DecidableEq, Repr

/-- Mutating calls the command layer makes to external collaborators, in
invocation order: `ops.apply()`, `HakariCargoToml::write_to_file`, and
`regenerate_lockfile`. -/
inductive Effect
  | applyOps
  | writeManifest
  | regenLockfile
deriving DecidableEq, Repr

/-- A single operation of a computed Plan (`hakari::cli_ops` operations). -/
inductive Op
  | createCrate (path : Utf8Path) (name : String)
  | writeConfig
  | addDepEdge (package : String)
  | removeDepEdge (package : String)
deriving DecidableEq, Repr

/-- A computed `WorkspaceOps` value together with the outcome its externally
implemented `apply()` would have (the apply itself lives in the `hakari`
crate). -/
structure WorkspaceOps where
  ops : List Op
  applyResult : Except CmdError Unit

/-- The `apply_on_dialog` helper (command.rs lines 512-553): on dry-run exit
with status 1 before anything runs; otherwise confirm (auto-`yes` skips the
dialog), and on confirmation run `ops.apply()?` then the `after` hook
(passed as its outcome plus the effects its invocation performs), exiting 0;
a decline exits 1 with nothing run. -/
def apply_on_dialog (dry_run yes : Bool) (ops : WorkspaceOps)
    (confirm : Except CmdError Bool)
    (after : Except CmdError Unit × List Effect) :
    Except CmdError Int × List Effect :=
  if dry_run then (.ok 1, [])
  else
    let should_apply : Except CmdError Bool := if yes then .ok true else confirm
    match should_apply with
    | .error e => (.error e, [])
    | .ok false => (.ok 1, [])
    | .ok true =>
      match ops.applyResult with
      | .error e => (.error e, [Effect.applyOps])
      | .ok _ =>
        match after.1 with
        | .error e => (.error e, Effect.applyOps :: after.2)
        | .ok _ => (.ok 0, Effect.applyOps :: after.2)

/-- The externally implemented manifest provider (`hakari::HakariCargoToml`)
for one existing manifest: the diff hunks, the semantic change check, and
the outcome writing given new contents would have. -/
structure HakariCargoToml where
  diffHunks : String → List String
  is_changed : String → Bool
  writeResult : String → Except CmdError Unit

/-- The `write_to_cargo_toml` helper (command.rs lines 479-510): in diff
mode render the patch and exit 0 exactly when the hunk set is empty (1
otherwise), writing nothing; otherwise write and regenerate the lockfile
only when the semantic change check reports a change. -/
def write_to_cargo_toml (existing_toml : HakariCargoToml) (new_contents : String)
    (diff : Bool) (regenResult : Except CmdError Unit) :
    Except CmdError Int × List Effect :=
  if diff then
    if (existing_toml.diffHunks new_contents).isEmpty then (.ok 0, []) else (.ok 1, [])
  else
    if !(existing_toml.is_changed new_contents) then (.ok 0, [])
    else
      match existing_toml.writeResult new_contents with
      | .error e => (.error e, [Effect.writeManifest])
      | .ok _ =>
        match regenResult with
        | .error e => (.error e, [Effect.writeManifest, Effect.regenLockfile])
        | .ok _ => (.ok 0, [Effect.writeManifest, Effect.regenLockfile])

/-- The error of `Hakari::to_toml_string`, with `UnrecognizedRegistry`
distinguished exactly as in `command.rs` lines 288-310. -/
inductive TomlOutError
  | unrecognizedRegistry (package_id : String) (registry_url : String)
  | otherFailure
deriving DecidableEq, Repr

/-- Environment of one `generate` invocation: the outcome of
`hakari.to_toml_string`, of `hakari.read_toml` (the inner result; the outer
`Option` is `expect`-ed against a config invariant), and of
`regenerate_lockfile`. -/
structure GenerateEnv where
  tomlOut : Except TomlOutError String
  readTomlResult : Except CmdError HakariCargoToml
  regenResult : Except CmdError Unit

/-- The `Generate` arm of `CommandWithBuilder::exec` (command.rs lines
285-317): an `UnrecognizedRegistry` error exits 102 before anything is read
or written; any other TOML-generation error propagates; otherwise the
existing manifest is read and reconciled via `write_to_cargo_toml`. -/
def generateExec (env : GenerateEnv) (diff : Bool) :
    Except CmdError Int × List Effect :=
  match env.tomlOut with
  | .error (TomlOutError.unrecognizedRegistry _ _) => (.ok 102, [])
  | .error TomlOutError.otherFailure => (.error .tomlOutFailed, [])
  | .ok toml_out =>
    match env.readTomlResult with
    | .error e => (.error e, [])
    | .ok existing_toml => write_to_cargo_toml existing_toml toml_out diff env.regenResult

/-- The message written into a disabled Cargo.toml (command.rs lines 38-42). -/
def DISABLE_MESSAGE : String :=
  "\n# Disabled by running `cargo hakari disable`.\n# To re-enable, run:\n#     cargo hakari generate\n"

/-- Environment of one `disable` invocation. -/
structure DisableEnv where
  readTomlResult : Except CmdError HakariCargoToml
  regenResult : Except CmdError Unit

/-- The `Disable` arm of `CommandWithBuilder::exec` (command.rs lines
403-408): read the existing manifest and reconcile it against the disable
message. -/
def disableExec (env : DisableEnv) (diff : Bool) :
    Except CmdError Int × List Effect :=
  match env.readTomlResult with
  | .error e => (.error e, [])
  | .ok existing_toml => write_to_cargo_toml existing_toml DISABLE_MESSAGE diff env.regenResult

/-- The workspace portion of a `guppy::PackageGraph`: the names of the
workspace packages (distinct by construction in guppy). -/
structure PackageGraph where
  workspace : List String
deriving DecidableEq, Repr

/-- Rust `PackageGraph::resolve_workspace`: every workspace package. -/
def resolve_workspace (g : PackageGraph) : List String := g.workspace

/-- Modelled from the spec: `PackageGraph::resolve_workspace_names` lives in
the `guppy` library crate, not under src/.  Per spec section 4.3, each name
is resolved against the graph and resolution fails with
`UnknownPackage(name)` on the first unresolvable name. -/
def resolve_workspace_names (g : PackageGraph) (names : List String) :
    Except CmdError (List String) :=
  match names.find? (fun n => !(g.workspace.contains n)) with
  | some n => .error (.unknownPackage n)
  | none => .ok names

/-- `PackageSelection::to_package_set` (command.rs lines 421-430): a
non-empty `--package` list resolves the names, an empty one selects the
whole workspace. -/
def to_package_set (packages : List String) (g : PackageGraph) :
    Except CmdError (List String) :=
  if !packages.isEmpty then resolve_workspace_names g packages
  else .ok (resolve_workspace g)

/-- Environment of one `manage-deps` / `remove-deps` invocation: the graph,
the planner (`manage_dep_ops` / `remove_dep_ops`, external) as a function
from the selected set to the computed operations, and the outcomes of
`ops.apply()`, the confirmation dialog, and `regenerate_lockfile`. -/
structure DepsEnv where
  graph : PackageGraph
  depOps : List String → List Op
  applyResult : Except CmdError Unit
  confirm : Except CmdError Bool
  regenResult : Except CmdError Unit

/-- The `ManageDeps` arm of `CommandWithBuilder::exec` (command.rs lines
339-355): resolve the selection, compute the operations, exit 0 when the
plan is empty, otherwise dispatch to `apply_on_dialog` with
`regenerate_lockfile` as the post-apply hook. -/
def manageDepsExec (env : DepsEnv) (packages : List String) (dry_run yes : Bool) :
    Except CmdError Int × List Effect :=
  match to_package_set packages env.graph with
  | .error e => (.error e, [])
  | .ok selected =>
    let ops := env.depOps selected
    if ops.isEmpty then (.ok 0, [])
    else
      apply_on_dialog dry_run yes ⟨ops, env.applyResult⟩ env.confirm
        (env.regenResult, [Effect.regenLockfile])

/-- The `RemoveDeps` arm of `CommandWithBuilder::exec` (command.rs lines
356-372): textually the same flow as `ManageDeps`, with the removal planner
computing the operations. -/
def removeDepsExec (env : DepsEnv) (packages : List String) (dry_run yes : Bool) :
    Except CmdError Int × List Effect :=
  match to_package_set packages env.graph with
  | .error e => (.error e, [])
  | .ok selected =>
    let ops := env.depOps selected
    if ops.isEmpty then (.ok 0, [])
    else
      apply_on_dialog dry_run yes ⟨ops, env.applyResult⟩ env.confirm
        (env.regenResult, [Effect.regenLockfile])

/-- State of `std::env::current_dir()` as observed by the command:
inaccessible, accessible but not valid UTF-8, or a UTF-8 directory path. -/
inductive CwdState
  | inaccessible
  | nonUtf8
  | dir (d : Utf8Path)
deriving DecidableEq, Repr

/-- The `cwd_rel_to_workspace_rel` helper (command.rs lines 436-455): an
absolute path is used as-is, a relative one is joined to the current
directory (failing if that directory is inaccessible or not UTF-8); the
result is the remainder after stripping the workspace root, and stripping
failure reports the path as outside the workspace. -/
def cwd_rel_to_workspace_rel (path workspace_root : Utf8Path) (cwd : CwdState) :
    Except CmdError Utf8Path :=
  let absRes : Except CmdError Utf8Path :=
    if path.absolute then .ok path
    else
      match cwd with
      | .inaccessible => .error .cwdAccess
      | .nonUtf8 => .error .invalidUtf8Cwd
      | .dir d => .ok (d.push path)
  match absRes with
  | .error e => .error e
  | .ok abs_path =>
    match stripPrefixRel abs_path workspace_root with
    | some rel => .ok rel
    | none => .error .pathOutsideWorkspace

/-- Environment of one `init` invocation: the workspace root, the current
directory, and the outcomes of `HakariInit::new`, `init.set_config`, the
apply of the computed operations, and the confirmation dialog. -/
structure InitEnv where
  workspaceRoot : Utf8Path
  cwd : CwdState
  initResult : Except CmdError Unit
  configResult : Except CmdError Unit
  applyResult : Except CmdError Unit
  confirm : Except CmdError Bool

/-- Modelled from the spec: `HakariInit::make_ops` lives in the `hakari`
crate, not under src/.  Per spec section 4.4, the init Plan "must create the
target package skeleton and, unless suppressed, a stub configuration file"
(`init.set_config` is only called when the config is not skipped,
command.rs lines 134-137). -/
def make_ops (workspace_path : Utf8Path) (package_name : String)
    (skip_config : Bool) : List Op :=
  Op.createCrate workspace_path package_name ::
    (if skip_config then [] else [Op.writeConfig])

/-- The part of the `Initialize` arm of `Command::exec` that runs before the
Plan is applied (command.rs lines 113-139): derive the package name (from
`path.file_name()` when not given explicitly, bailing on an invalid path),
resolve the path relative to the workspace root, construct the
`HakariInit`, and set the stub config unless skipped. -/
def initPrePlan (env : InitEnv) (path : Utf8Path) (package_name : Option String)
    (skip_config : Bool) : Except CmdError (Utf8Path × String) :=
  let nameOpt : Option String :=
    match package_name with
    | some n => some n
    | none => path.file_name
  match nameOpt with
  | none => .error .invalidPath
  | some name =>
    match cwd_rel_to_workspace_rel path env.workspaceRoot env.cwd with
    | .error e => .error e
    | .ok workspace_path =>
      match env.initResult with
      | .error e => .error e
      | .ok _ =>
        match (if skip_config then Except.ok () else env.configResult) with
        | .error e => .error e
        | .ok _ => .ok (workspace_path, name)

/-- The `Initialize` arm of `Command::exec` (command.rs lines 113-158): run
the pre-plan phase, compute the operations with `make_ops`, and dispatch to
`apply_on_dialog`; the `after` closure of init only logs next steps, so it
always succeeds and performs no mutation. -/
def initExec (env : InitEnv) (path : Utf8Path) (package_name : Option String)
    (skip_config dry_run yes : Bool) : Except CmdError Int × List Effect :=
  match initPrePlan env path package_name skip_config with
  | .error e => (.error e, [])
  | .ok (workspace_path, name) =>
    apply_on_dialog dry_run yes
      ⟨make_ops workspace_path name skip_config, env.applyResult⟩
      env.confirm (Except.ok (), [])

/-!
Theorems settling the claims.
-/

/-- C1: for every command that computes an operation Plan, an empty computed
Plan makes the command terminate with exit code 0 and no mutation,
regardless of the dry-run and yes flags: `manage-deps` and `remove-deps`
check emptiness before dispatching, and the init Plan (modelled from the
spec) always contains the crate-creation operation, so it is never empty
and the empty-Plan case cannot arise for `init`. -/
theorem c1_empty_plan_noop :
    (∀ (env : DepsEnv) (packages selected : List String) (dry_run yes : Bool),
      to_package_set packages env.graph = .ok selected →
      env.depOps selected = [] →
      manageDepsExec env packages dry_run yes = (.ok 0, [])) ∧
    (∀ (env : DepsEnv) (packages selected : List String) (dry_run yes : Bool),
      to_package_set packages env.graph = .ok selected →
      env.depOps selected = [] →
      removeDepsExec env packages dry_run yes = (.ok 0, [])) ∧
    (∀ (workspace_path : Utf8Path) (package_name : String) (skip_config : Bool),
      make_ops workspace_path package_name skip_config ≠ []) := by
  refine ⟨?_, ?_, ?_⟩
  · intro env packages selected dry_run yes hsel hops
    unfold manageDepsExec
    rw [hsel]
    simp [hops]
  · intro env packages selected dry_run yes hsel hops
    unfold removeDepsExec
    rw [hsel]
    simp [hops]
  · intro workspace_path package_name skip_config
    simp [make_ops]

/-- Witness for C1 at concrete inputs: a one-package workspace with a
planner that computes no operations, under `dry-run` and under `yes`. -/
theorem c1_empty_plan_noop_witness :
    manageDepsExec ⟨⟨["a"]⟩, fun _ => [], .ok (), .ok true, .ok ()⟩ [] true false
      = (.ok 0, []) ∧
    removeDepsExec ⟨⟨["a"]⟩, fun _ => [], .ok (), .ok true, .ok ()⟩ [] false true
      = (.ok 0, []) ∧
    make_ops ⟨false, ["ws-hack"]⟩ "ws-hack" true ≠ [] := by
  refine ⟨?_, ?_, ?_⟩
  · exact c1_empty_plan_noop.1 _ [] ["a"] true false rfl rfl
  · exact c1_empty_plan_noop.2.1 _ [] ["a"] false true rfl rfl
  · exact c1_empty_plan_noop.2.2 ⟨false, ["ws-hack"]⟩ "ws-hack" true

/-- C2: with dry-run set and a non-empty computed Plan, `init`,
`manage-deps` and `remove-deps` exit with status 1 and perform no mutation:
neither `ops.apply()` nor the post-apply lockfile-regeneration hook runs
(the effect list is empty). -/
theorem c2_dry_run_purity :
    (∀ (env : DepsEnv) (packages selected : List String) (yes : Bool),
      to_package_set packages env.graph = .ok selected →
      env.depOps selected ≠ [] →
      manageDepsExec env packages true yes = (.ok 1, [])) ∧
    (∀ (env : DepsEnv) (packages selected : List String) (yes : Bool),
      to_package_set packages env.graph = .ok selected →
      env.depOps selected ≠ [] →
      removeDepsExec env packages true yes = (.ok 1, [])) ∧
    (∀ (env : InitEnv) (path : Utf8Path) (package_name : Option String)
        (skip_config yes : Bool) (pre : Utf8Path × String),
      initPrePlan env path package_name skip_config = .ok pre →
      initExec env path package_name skip_config true yes = (.ok 1, [])) := by
  refine ⟨?_, ?_, ?_⟩
  · intro env packages selected yes hsel hops
    unfold manageDepsExec
    rw [hsel]
    simp [hops, apply_on_dialog]
  · intro env packages selected yes hsel hops
    unfold removeDepsExec
    rw [hsel]
    simp [hops, apply_on_dialog]
  · intro env path package_name skip_config yes pre hpre
    unfold initExec
    rw [hpre]
    simp [apply_on_dialog]

/-- Witness for C2 at concrete inputs: a planner computing one edge
addition, and an init on `crates/ws-hack` from the workspace root. -/
theorem c2_dry_run_purity_witness :
    manageDepsExec ⟨⟨["a"]⟩, fun _ => [Op.addDepEdge "a"], .ok (), .ok true, .ok ()⟩
      ["a"] true false = (.ok 1, []) ∧
    removeDepsExec ⟨⟨["a"]⟩, fun _ => [Op.removeDepEdge "a"], .ok (), .ok true, .ok ()⟩
      ["a"] true false = (.ok 1, []) ∧
    initExec ⟨⟨true, ["w"]⟩, .dir ⟨true, ["w"]⟩, .ok (), .ok (), .ok (), .ok true⟩
      ⟨false, ["crates", "ws-hack"]⟩ none false true false = (.ok 1, []) := by
  refine ⟨?_, ?_, ?_⟩
  · exact c2_dry_run_purity.1 _ ["a"] ["a"] false rfl (by simp)
  · exact c2_dry_run_purity.2.1 _ ["a"] ["a"] false rfl (by simp)
  · exact c2_dry_run_purity.2.2 _ ⟨false, ["crates", "ws-hack"]⟩ none false false
      (⟨false, ["crates", "ws-hack"]⟩, "ws-hack") rfl

/-- C3: when producing the new TOML contents fails with
`UnrecognizedRegistry`, `generate` returns exit code 102 as a success value
(not a propagated error, which the binary wrapper reports as the general
failure status 101) and performs no write and no lockfile regeneration,
in either diff or write mode. -/
theorem c3_unrecognized_registry :
    ∀ (env : GenerateEnv) (diff : Bool) (package_id registry_url : String),
      env.tomlOut = .error (.unrecognizedRegistry package_id registry_url) →
      generateExec env diff = (.ok 102, []) := by
  intro env diff package_id registry_url htoml
  unfold generateExec
  rw [htoml]

/-- Witness for C3 at a concrete input: one unrecognized registry URL, with
a failing manifest read to show nothing downstream is ever consulted. -/
theorem c3_unrecognized_registry_witness :
    generateExec
      ⟨.error (.unrecognizedRegistry "pkg-id" "https://registry.example"),
        .error .readTomlFailed, .ok ()⟩ false = (.ok 102, []) :=
  c3_unrecognized_registry _ false "pkg-id" "https://registry.example" rfl

/-- C4: in diff mode, `generate` and `disable` exit 0 exactly when the
computed patch's hunk set is empty and 1 otherwise, and in both cases write
nothing to the manifest and never invoke lockfile regeneration. -/
theorem c4_diff_mode :
    (∀ (env : GenerateEnv) (toml_out : String) (existing_toml : HakariCargoToml),
      env.tomlOut = .ok toml_out →
      env.readTomlResult = .ok existing_toml →
      generateExec env true =
        (.ok (if (existing_toml.diffHunks toml_out).isEmpty then 0 else 1), [])) ∧
    (∀ (env : DisableEnv) (existing_toml : HakariCargoToml),
      env.readTomlResult = .ok existing_toml →
      disableExec env true =
        (.ok (if (existing_toml.diffHunks DISABLE_MESSAGE).isEmpty then 0 else 1),
          [])) := by
  constructor
  · intro env toml_out existing_toml htoml hread
    unfold generateExec
    rw [htoml, hread]
    unfold write_to_cargo_toml
    by_cases h : (existing_toml.diffHunks toml_out).isEmpty = true <;> simp [h]
  · intro env existing_toml hread
    unfold disableExec
    rw [hread]
    unfold write_to_cargo_toml
    by_cases h : (existing_toml.diffHunks DISABLE_MESSAGE).isEmpty = true <;> simp [h]

/-- Witness for C4 at concrete inputs: an empty hunk set exits 0 for
`generate`, a non-empty one exits 1 for `disable`; both providers would
fail on a write, showing no write is attempted. -/
theorem c4_diff_mode_witness :
    generateExec
      ⟨.ok "contents", .ok ⟨fun _ => [], fun _ => false, fun _ => .error .writeFailed⟩,
        .ok ()⟩ true = (.ok 0, []) ∧
    disableExec
      ⟨.ok ⟨fun _ => ["hunk"], fun _ => true, fun _ => .error .writeFailed⟩, .ok ()⟩
      true = (.ok 1, []) := by
  constructor
  · have h := c4_diff_mode.1
      ⟨.ok "contents", .ok ⟨fun _ => [], fun _ => false, fun _ => .error .writeFailed⟩,
        .ok ()⟩ "contents" ⟨fun _ => [], fun _ => false, fun _ => .error .writeFailed⟩
      rfl rfl
    simpa using h
  · have h := c4_diff_mode.2
      ⟨.ok ⟨fun _ => ["hunk"], fun _ => true, fun _ => .error .writeFailed⟩, .ok ()⟩
      ⟨fun _ => ["hunk"], fun _ => true, fun _ => .error .writeFailed⟩ rfl
    simpa using h

/-- C5: in non-diff mode, when the semantic change check reports the
manifest unchanged, `generate` exits 0 with no write and no lockfile
regeneration; when it reports a change, `generate` writes the new contents,
then regenerates the lockfile, and exits 0 (given both succeed). -/
theorem c5_generate_unchanged :
    (∀ (env : GenerateEnv) (toml_out : String) (existing_toml : HakariCargoToml),
      env.tomlOut = .ok toml_out →
      env.readTomlResult = .ok existing_toml →
      existing_toml.is_changed toml_out = false →
      generateExec env false = (.ok 0, [])) ∧
    (∀ (env : GenerateEnv) (toml_out : String) (existing_toml : HakariCargoToml),
      env.tomlOut = .ok toml_out →
      env.readTomlResult = .ok existing_toml →
      existing_toml.is_changed toml_out = true →
      existing_toml.writeResult toml_out = .ok () →
      env.regenResult = .ok () →
      generateExec env false =
        (.ok 0, [Effect.writeManifest, Effect.regenLockfile])) := by
  constructor
  · intro env toml_out existing_toml htoml hread hunchanged
    unfold generateExec
    rw [htoml, hread]
    unfold write_to_cargo_toml
    simp [hunchanged]
  · intro env toml_out existing_toml htoml hread hchanged hwrite hregen
    unfold generateExec
    rw [htoml, hread]
    unfold write_to_cargo_toml
    simp [hchanged, hwrite, hregen]

/-- Witness for C5 at concrete inputs: an unchanged manifest whose provider
would fail on a write (showing none is attempted), and a changed manifest
where both the write and the regeneration succeed. -/
theorem c5_generate_unchanged_witness :
    generateExec
      ⟨.ok "same", .ok ⟨fun _ => [], fun _ => false, fun _ => .error .writeFailed⟩,
        .error .lockRegenFailed⟩ false = (.ok 0, []) ∧
    generateExec
      ⟨.ok "fresh", .ok ⟨fun _ => ["hunk"], fun _ => true, fun _ => .ok ()⟩, .ok ()⟩
      false = (.ok 0, [Effect.writeManifest, Effect.regenLockfile]) := by
  constructor
  · exact c5_generate_unchanged.1
      ⟨.ok "same", .ok ⟨fun _ => [], fun _ => false, fun _ => .error .writeFailed⟩,
        .error .lockRegenFailed⟩ "same"
      ⟨fun _ => [], fun _ => false, fun _ => .error .writeFailed⟩ rfl rfl rfl
  · exact c5_generate_unchanged.2
      ⟨.ok "fresh", .ok ⟨fun _ => ["hunk"], fun _ => true, fun _ => .ok ()⟩, .ok ()⟩
      "fresh" ⟨fun _ => ["hunk"], fun _ => true, fun _ => .ok ()⟩ rfl rfl rfl rfl rfl

/-- C6: an empty `--package` list selects exactly the full workspace; a
non-empty list whose names all resolve returns exactly the named packages;
a non-empty list containing an unresolvable name fails with
`UnknownPackage` naming an unresolvable member of the list. -/
theorem c6_package_selection :
    (∀ g : PackageGraph, to_package_set [] g = .ok g.workspace) ∧
    (∀ (g : PackageGraph) (names : List String), names ≠ [] →
      (∀ n ∈ names, n ∈ g.workspace) →
      to_package_set names g = .ok names) ∧
    (∀ (g : PackageGraph) (names : List String), names ≠ [] →
      (∃ n ∈ names, n ∉ g.workspace) →
      ∃ n, n ∈ names ∧ n ∉ g.workspace ∧
        to_package_set names g = .error (.unknownPackage n)) := by
  refine ⟨?_, ?_, ?_⟩
  · intro g
    simp [to_package_set, resolve_workspace]
  · intro g names hne hall
    have hne2 : names.isEmpty = false := by
      cases names with
      | nil => exact absurd rfl hne
      | cons a l => rfl
    have hfind : names.find? (fun n => !(g.workspace.contains n)) = none := by
      rw [List.find?_eq_none]
      intro n hn
      simp [hall n hn]
    unfold to_package_set resolve_workspace_names
    rw [hne2, hfind]
    simp
  · intro g names hne hmiss
    have hne2 : names.isEmpty = false := by
      cases names with
      | nil => exact absurd rfl hne
      | cons a l => rfl
    have hsome : (names.find? (fun n => !(g.workspace.contains n))).isSome := by
      rw [List.find?_isSome]
      obtain ⟨n, hn, hnot⟩ := hmiss
      exact ⟨n, hn, by simpa using hnot⟩
    obtain ⟨m, hm⟩ := Option.isSome_iff_exists.mp hsome
    refine ⟨m, List.mem_of_find?_eq_some hm, ?_, ?_⟩
    · have := List.find?_some hm
      simpa using this
    · unfold to_package_set resolve_workspace_names
      rw [hne2, hm]
      simp

/-- Witness for C6 at concrete inputs: a two-package workspace, selecting
everything, a present subset, and a missing name. -/
theorem c6_package_selection_witness :
    to_package_set [] ⟨["a", "b"]⟩ = .ok ["a", "b"] ∧
    to_package_set ["a"] ⟨["a", "b"]⟩ = .ok ["a"] ∧
    ∃ n, n ∈ ["missing"] ∧ n ∉ (["a", "b"] : List String) ∧
      to_package_set ["missing"] ⟨["a", "b"]⟩ = .error (.unknownPackage n) := by
  refine ⟨?_, ?_, ?_⟩
  · exact c6_package_selection.1 ⟨["a", "b"]⟩
  · exact c6_package_selection.2.1 ⟨["a", "b"]⟩ ["a"] (by simp) (by simp)
  · exact c6_package_selection.2.2 ⟨["a", "b"]⟩ ["missing"] (by simp)
      ⟨"missing", by simp, by simp⟩

/-- Stripping the workspace root: when the root is a component-wise
ancestor the result is the relative remainder (re-appending the root's
components recovers the full path), and otherwise stripping fails. -/
theorem stripPrefixRel_spec (p root : Utf8Path) :
    (isDescendantOf p root = true →
      stripPrefixRel p root =
        some ⟨false, p.components.drop root.components.length⟩ ∧
      root.components ++ p.components.drop root.components.length = p.components) ∧
    (isDescendantOf p root = false → stripPrefixRel p root = none) := by
  constructor
  · intro h
    refine ⟨by simp [stripPrefixRel, h], ?_⟩
    have hpre : root.components <+: p.components := by
      have h2 := (Bool.and_eq_true _ _).mp h |>.2
      exact List.isPrefixOf_iff_prefix.mp h2
    exact List.prefix_iff_eq_append.mp hpre
  · intro h
    simp [stripPrefixRel, h]

/-- C7: the workspace locator uses an absolute input path as-is (the
current directory is never consulted) and joins a relative one to the
current directory; the successful result is the path relative to the
workspace root (re-appending the root's components recovers the absolute
path); it fails with the outside-workspace error when the root is not an
ancestor of the absolute path, and with the encoding error when the path is
relative and the current directory is not valid UTF-8. -/
theorem c7_workspace_locator :
    ∀ (path workspace_root : Utf8Path) (cwd : CwdState) (d : Utf8Path),
      (path.absolute = true →
        (isDescendantOf path workspace_root = true →
          ∃ rel, cwd_rel_to_workspace_rel path workspace_root cwd = .ok rel ∧
            rel.absolute = false ∧
            workspace_root.components ++ rel.components = path.components) ∧
        (isDescendantOf path workspace_root = false →
          cwd_rel_to_workspace_rel path workspace_root cwd =
            .error .pathOutsideWorkspace)) ∧
      (path.absolute = false → cwd = .dir d →
        (isDescendantOf (d.push path) workspace_root = true →
          ∃ rel, cwd_rel_to_workspace_rel path workspace_root cwd = .ok rel ∧
            rel.absolute = false ∧
            workspace_root.components ++ rel.components = (d.push path).components) ∧
        (isDescendantOf (d.push path) workspace_root = false →
          cwd_rel_to_workspace_rel path workspace_root cwd =
            .error .pathOutsideWorkspace)) ∧
      (path.absolute = false → cwd = .nonUtf8 →
        cwd_rel_to_workspace_rel path workspace_root cwd = .error .invalidUtf8Cwd) := by
  intro path workspace_root cwd d
  refine ⟨?_, ?_, ?_⟩
  · intro habs
    constructor
    · intro hdesc
      obtain ⟨hstrip, happ⟩ := (stripPrefixRel_spec path workspace_root).1 hdesc
      refine ⟨⟨false, path.components.drop workspace_root.components.length⟩,
        ?_, rfl, happ⟩
      simp [cwd_rel_to_workspace_rel, habs, hstrip]
    · intro hdesc
      have hstrip := (stripPrefixRel_spec path workspace_root).2 hdesc
      simp [cwd_rel_to_workspace_rel, habs, hstrip]
  · intro habs hcwd
    constructor
    · intro hdesc
      obtain ⟨hstrip, happ⟩ := (stripPrefixRel_spec (d.push path) workspace_root).1 hdesc
      refine ⟨⟨false, (d.push path).components.drop workspace_root.components.length⟩,
        ?_, rfl, happ⟩
      simp [cwd_rel_to_workspace_rel, habs, hcwd, hstrip]
    · intro hdesc
      have hstrip := (stripPrefixRel_spec (d.push path) workspace_root).2 hdesc
      simp [cwd_rel_to_workspace_rel, habs, hcwd, hstrip]
  · intro habs hcwd
    simp [cwd_rel_to_workspace_rel, habs, hcwd]

/-- Witness for C7 at concrete inputs: an absolute path inside the root, an
absolute path outside it, a relative path joined to the current directory,
and a relative path with a non-UTF-8 current directory. -/
theorem c7_workspace_locator_witness :
    (∃ rel, cwd_rel_to_workspace_rel ⟨true, ["w", "a"]⟩ ⟨true, ["w"]⟩ .inaccessible
        = .ok rel ∧ rel.absolute = false ∧
        (["w"] : List String) ++ rel.components = ["w", "a"]) ∧
    cwd_rel_to_workspace_rel ⟨true, ["elsewhere"]⟩ ⟨true, ["w"]⟩ .inaccessible
      = .error .pathOutsideWorkspace ∧
    (∃ rel, cwd_rel_to_workspace_rel ⟨false, ["a"]⟩ ⟨true, ["w"]⟩ (.dir ⟨true, ["w"]⟩)
        = .ok rel ∧ rel.absolute = false ∧
        (["w"] : List String) ++ rel.components =
          ((Utf8Path.mk true ["w"]).push ⟨false, ["a"]⟩).components) ∧
    cwd_rel_to_workspace_rel ⟨false, ["a"]⟩ ⟨true, ["w"]⟩ .nonUtf8
      = .error .invalidUtf8Cwd := by
  refine ⟨?_, ?_, ?_, ?_⟩
  · exact ((c7_workspace_locator ⟨true, ["w", "a"]⟩ ⟨true, ["w"]⟩ .inaccessible
      ⟨true, []⟩).1 rfl).1 (by decide)
  · exact ((c7_workspace_locator ⟨true, ["elsewhere"]⟩ ⟨true, ["w"]⟩ .inaccessible
      ⟨true, []⟩).1 rfl).2 (by decide)
  · exact ((c7_workspace_locator ⟨false, ["a"]⟩ ⟨true, ["w"]⟩ (.dir ⟨true, ["w"]⟩)
      ⟨true, ["w"]⟩).2.1 rfl rfl).1 (by decide)
  · exact (c7_workspace_locator ⟨false, ["a"]⟩ ⟨true, ["w"]⟩ .nonUtf8
      ⟨true, []⟩).2.2 rfl rfl

/-- C8: when the interactive confirmation declines a non-empty Plan,
`manage-deps`, `remove-deps` and `init` perform no mutation (the effect
list is empty: neither `ops.apply()` nor the post-apply hook runs) and exit
with status 1 — and the dry-run exit of `apply_on_dialog` carries that same
status 1, so decline and dry-run share the exit code. -/
theorem c8_decline_no_mutation :
    (∀ (env : DepsEnv) (packages selected : List String),
      to_package_set packages env.graph = .ok selected →
      env.depOps selected ≠ [] →
      env.confirm = .ok false →
      manageDepsExec env packages false false = (.ok 1, [])) ∧
    (∀ (env : DepsEnv) (packages selected : List String),
      to_package_set packages env.graph = .ok selected →
      env.depOps selected ≠ [] →
      env.confirm = .ok false →
      removeDepsExec env packages false false = (.ok 1, [])) ∧
    (∀ (env : InitEnv) (path : Utf8Path) (package_name : Option String)
        (skip_config : Bool) (pre : Utf8Path × String),
      initPrePlan env path package_name skip_config = .ok pre →
      env.confirm = .ok false →
      initExec env path package_name skip_config false false = (.ok 1, [])) ∧
    (∀ (yes : Bool) (ops : WorkspaceOps) (confirm : Except CmdError Bool)
        (after : Except CmdError Unit × List Effect),
      apply_on_dialog true yes ops confirm after = (.ok 1, [])) := by
  refine ⟨?_, ?_, ?_, ?_⟩
  · intro env packages selected hsel hops hconfirm
    unfold manageDepsExec
    rw [hsel]
    simp [hops, apply_on_dialog, hconfirm]
  · intro env packages selected hsel hops hconfirm
    unfold removeDepsExec
    rw [hsel]
    simp [hops, apply_on_dialog, hconfirm]
  · intro env path package_name skip_config pre hpre hconfirm
    unfold initExec
    rw [hpre]
    simp [apply_on_dialog, hconfirm]
  · intro yes ops confirm after
    simp [apply_on_dialog]

/-- Witness for C8 at concrete inputs: a declining dialog against a
one-operation Plan for each command, and a dry-run exit. -/
theorem c8_decline_no_mutation_witness :
    manageDepsExec ⟨⟨["a"]⟩, fun _ => [Op.addDepEdge "a"], .ok (), .ok false, .ok ()⟩
      ["a"] false false = (.ok 1, []) ∧
    removeDepsExec ⟨⟨["a"]⟩, fun _ => [Op.removeDepEdge "a"], .ok (), .ok false, .ok ()⟩
      ["a"] false false = (.ok 1, []) ∧
    initExec ⟨⟨true, ["w"]⟩, .dir ⟨true, ["w"]⟩, .ok (), .ok (), .ok (), .ok false⟩
      ⟨false, ["crates", "ws-hack"]⟩ none false false false = (.ok 1, []) ∧
    apply_on_dialog true false ⟨[Op.writeConfig], .ok ()⟩ (.ok true) (.ok (), [])
      = (.ok 1, []) := by
  refine ⟨?_, ?_, ?_, ?_⟩
  · exact c8_decline_no_mutation.1 _ ["a"] ["a"] rfl (by simp) rfl
  · exact c8_decline_no_mutation.2.1 _ ["a"] ["a"] rfl (by simp) rfl
  · exact c8_decline_no_mutation.2.2.1 _ ⟨false, ["crates", "ws-hack"]⟩ none false
      (⟨false, ["crates", "ws-hack"]⟩, "ws-hack") rfl rfl
  · exact c8_decline_no_mutation.2.2.2 false ⟨[Op.writeConfig], .ok ()⟩ (.ok true)
      (.ok (), [])

/-- C9: once a Plan has been applied (confirmation affirmative or `yes`
set, and `ops.apply()` succeeded), the post-apply hook is invoked: on hook
success the command exits 0 with the apply and the hook's effects recorded;
on hook failure the apply effect remains recorded (nothing is undone) and
the hook's error is surfaced on top of the completed apply.  The same holds
for the generate/disable write path: after a successful manifest write, a
failing lockfile regeneration leaves the write in place and surfaces the
error. -/
theorem c9_post_apply_hook :
    (∀ (yes : Bool) (ops : WorkspaceOps) (confirm : Except CmdError Bool)
        (after : Except CmdError Unit × List Effect),
      (yes = true ∨ confirm = .ok true) →
      ops.applyResult = .ok () →
      ((after.1 = .ok () →
        apply_on_dialog false yes ops confirm after =
          (.ok 0, Effect.applyOps :: after.2)) ∧
       (∀ e, after.1 = .error e →
        apply_on_dialog false yes ops confirm after =
          (.error e, Effect.applyOps :: after.2)))) ∧
    (∀ (existing_toml : HakariCargoToml) (new_contents : String) (e : CmdError),
      existing_toml.is_changed new_contents = true →
      existing_toml.writeResult new_contents = .ok () →
      write_to_cargo_toml existing_toml new_contents false (.error e) =
        (.error e, [Effect.writeManifest, Effect.regenLockfile])) := by
  constructor
  · intro yes ops confirm after hyes happly
    constructor
    · intro hafter
      rcases hyes with h | h <;>
        simp [apply_on_dialog, h, happly, hafter]
    · intro e hafter
      rcases hyes with h | h <;>
        simp [apply_on_dialog, h, happly, hafter]
  · intro existing_toml new_contents e hchanged hwrite
    unfold write_to_cargo_toml
    simp [hchanged, hwrite]

/-- Witness for C9 at concrete inputs: an applied Plan whose hook fails
(the apply effect persists and the error is surfaced), an applied Plan
whose hook succeeds, and a written manifest whose lockfile regeneration
fails. -/
theorem c9_post_apply_hook_witness :
    apply_on_dialog false true ⟨[Op.addDepEdge "a"], .ok ()⟩ (.ok true)
      (.error .lockRegenFailed, [Effect.regenLockfile]) =
      (.error .lockRegenFailed, [Effect.applyOps, Effect.regenLockfile]) ∧
    apply_on_dialog false false ⟨[Op.addDepEdge "a"], .ok ()⟩ (.ok true)
      (.ok (), [Effect.regenLockfile]) =
      (.ok 0, [Effect.applyOps, Effect.regenLockfile]) ∧
    write_to_cargo_toml ⟨fun _ => ["hunk"], fun _ => true, fun _ => .ok ()⟩ "fresh"
      false (.error .lockRegenFailed) =
      (.error .lockRegenFailed, [Effect.writeManifest, Effect.regenLockfile]) := by
  refine ⟨?_, ?_, ?_⟩
  · exact (c9_post_apply_hook.1 true ⟨[Op.addDepEdge "a"], .ok ()⟩ (.ok true)
      (.error .lockRegenFailed, [Effect.regenLockfile]) (Or.inl rfl) rfl).2
      .lockRegenFailed rfl
  · exact (c9_post_apply_hook.1 false ⟨[Op.addDepEdge "a"], .ok ()⟩ (.ok true)
      (.ok (), [Effect.regenLockfile]) (Or.inr rfl) rfl).1 rfl
  · exact c9_post_apply_hook.2 ⟨fun _ => ["hunk"], fun _ => true, fun _ => .ok ()⟩
      "fresh" .lockRegenFailed rfl rfl

/-- C10: with no explicit package name, `init` derives the name from the
final component of the supplied path, and when the path has no final
component (it is empty, a bare root, or terminates in `..`) it fails with
the invalid-path error before any plan is computed and with no mutation. -/
theorem c10_init_name_from_path :
    (∀ (env : InitEnv) (path : Utf8Path) (skip_config dry_run yes : Bool),
      path.file_name = none →
      initExec env path none skip_config dry_run yes = (.error .invalidPath, [])) ∧
    (∀ (env : InitEnv) (path : Utf8Path) (skip_config : Bool) (n : String)
        (pre : Utf8Path × String),
      path.file_name = some n →
      initPrePlan env path none skip_config = .ok pre →
      pre.2 = n) := by
  constructor
  · intro env path skip_config dry_run yes hname
    unfold initExec initPrePlan
    simp [hname]
  · intro env path skip_config n pre hname hpre
    unfold initPrePlan at hpre
    rw [hname] at hpre
    simp only at hpre
    rcases h1 : cwd_rel_to_workspace_rel path env.workspaceRoot env.cwd with e | wp <;>
      rw [h1] at hpre
    · cases hpre
    · rcases h2 : env.initResult with e | u <;> rw [h2] at hpre
      · cases hpre
      · rcases h3 : (if skip_config then Except.ok () else env.configResult) with
          e | u <;> rw [h3] at hpre
        · cases hpre
        · cases hpre
          rfl

/-- Witness for C10 at concrete inputs: a path ending in `..` has no file
name and fails, and `init` on `crates/ws-hack` derives the name
`ws-hack`. -/
theorem c10_init_name_from_path_witness :
    initExec ⟨⟨true, ["w"]⟩, .dir ⟨true, ["w"]⟩, .ok (), .ok (), .ok (), .ok true⟩
      ⟨false, ["crates", ".."]⟩ none false false true = (.error .invalidPath, []) ∧
    ((⟨false, ["crates", "ws-hack"]⟩, "ws-hack") : Utf8Path × String).2 = "ws-hack" := by
  constructor
  · exact c10_init_name_from_path.1 _ ⟨false, ["crates", ".."]⟩ false false true rfl
  · exact c10_init_name_from_path.2
      ⟨⟨true, ["w"]⟩, .dir ⟨true, ["w"]⟩, .ok (), .ok (), .ok (), .ok true⟩
      ⟨false, ["crates", "ws-hack"]⟩ false "ws-hack"
      (⟨false, ["crates", "ws-hack"]⟩, "ws-hack") rfl (by rfl)

end CargoHakari
